import Mathlib

/-!
Shallow embedding of the mltemplate repository's registry and dispatch layer,
with theorems checking the natural-language specification against the code.

Python dicts are embedded as insertion-ordered association lists with unique
keys (`alookup` mirrors `dict.get`, `upsert` mirrors `d[k] = v`); float metric
values are embedded as rationals; fallible code returns `Except`.
-/

namespace Mltemplate

/-- Association-list lookup, mirroring Python `dict.get(k)` on an
insertion-ordered dict embedded as a list of key-value pairs. -/
def alookup (k : String) : List (String × β) → Option β
  | [] => none
  | p :: ps => if p.1 = k then some p.2 else alookup k ps

/-- Association-list update, mirroring Python `d[k] = v`: replaces the value
in place when the key is present (keeping its position), else appends. -/
def upsert (k v : String) : List (String × String) → List (String × String)
  | [] => [(k, v)]
  | p :: ps => if p.1 = k then (k, v) :: ps else p :: upsert k v ps

/-- One registered-model record, as built by `Registry._fetch_models_info`
(src/mltemplate/core/registry.py): name, version, dataset, status, the three
accuracy metrics, the owning experiment id and the run id.  The free-form
`params` mapping is omitted; no claim mentions it. -/
structure ModelRecord where
  name : String
  version : String
  dataset : String
  status : String
  train_acc : ℚ
  val_acc : ℚ
  test_acc : ℚ
  experiment_id : String
  run_id : String
deriving DecidableEq, Repr

/-- The registry's in-memory snapshot: `self.models` (run_id to record) and
`self.experiments` (experiment_id to name), both insertion-ordered dicts. -/
structure Snapshot where
  models : List (String × ModelRecord)
  experiments : List (String × String)
deriving DecidableEq, Repr

/-- `Registry.experiment_ids`: `list(self.experiments.keys())`. -/
def Snapshot.experiment_ids (s : Snapshot) : List String :=
  s.experiments.map Prod.fst

/-- `Registry.experiment_names`: the names of all experiments in the snapshot. -/
def Snapshot.experiment_names (s : Snapshot) : List String :=
  s.experiments.map Prod.snd

/-- `Registry.model_name_and_version(run_id)`: snapshot lookup; raises
`ValueError` when the run id is absent. -/
def Snapshot.model_name_and_version (s : Snapshot) (runId : String) :
    Except String String :=
  match alookup runId s.models with
  | none => .error ("No model found with run_id: " ++ runId)
  | some m => .ok (m.name ++ "/" ++ m.version)

/-- The step of Python `max(iterable, key=f)`: keep the current maximizer
unless the next element's key is strictly greater (so the first maximizer
wins ties). -/
def pickMax (key : α → ℚ) (b c : α) : α := if key b < key c then c else b

/-- Python `max(xs, key=f)` over a non-empty iterable: `none` on empty input
(where Python raises), else the first element of maximal key. -/
def maxKeyFirst (key : α → ℚ) : List α → Option α
  | [] => none
  | x :: xs => some (xs.foldl (pickMax key) x)

/-- The key function of the `max` call in `Registry.best_model_for_experiment`:
a model's test accuracy when its experiment id matches, else the `-1.0`
sentinel. -/
def selKey (expId : String) (p : String × ModelRecord) : ℚ :=
  if p.2.experiment_id = expId then p.2.test_acc else -1

/-- The selection logic of `Registry.best_model_for_experiment(experiment_id)`
(src/mltemplate/core/registry.py lines 102-113), applied to the snapshot left
by the implicit `refresh()`: `None` when the snapshot has zero models or the
experiment id is not a key of `self.experiments`; otherwise
`self.models.get(max(self.models, key=...))`. -/
def Snapshot.best_model_for_experiment (s : Snapshot) (expId : String) :
    Option ModelRecord :=
  if s.models.length = 0 ∨ ¬ expId ∈ s.experiment_ids then none
  else
    match maxKeyFirst (selKey expId) s.models with
    | none => none
    | some p => alookup p.1 s.models

/-- The MLFlow tracking backend as the registry observes it: the value
`_fetch_models_info()` would build, the value `_fetch_experiments_info()`
would build, and `client.get_experiment_by_name(name).experiment_id`; each
`.error` case is the tracking backend being unreachable (or, for
`get_experiment_by_name`, the name being unknown), which surfaces as a raised
exception. -/
structure Backend where
  fetchModels : Except String (List (String × ModelRecord))
  fetchExperiments : Except String (List (String × String))
  getExperimentByName : String → Except String String

/-- `Registry.refresh()` (src/mltemplate/core/registry.py lines 42-45):
`self.models = self._fetch_models_info()` then
`self.experiments = self._fetch_experiments_info()`, two sequential
assignments.  Returns the state after the call together with the raised
exception, if any: a failure in the models fetch propagates before either
assignment; a failure in the experiments fetch propagates after `self.models`
has already been replaced. -/
def Registry.refresh (b : Backend) (s : Snapshot) : Snapshot × Option String :=
  match b.fetchModels with
  | .error e => (s, some e)
  | .ok ms =>
    match b.fetchExperiments with
    | .error e => ({ models := ms, experiments := s.experiments }, some e)
    | .ok es => ({ models := ms, experiments := es }, none)

/-- `Registry.best_model_for_experiment` including its implicit `refresh()`:
on refresh failure the exception propagates; otherwise the selection of
`Snapshot.best_model_for_experiment` runs on the refreshed snapshot. -/
def Registry.best_model_for_experiment (b : Backend) (s : Snapshot)
    (expId : String) : Except String (Option ModelRecord) :=
  match Registry.refresh b s with
  | (_, some e) => .error e
  | (s', none) => .ok (s'.best_model_for_experiment expId)

/-- One tracked run as `client.search_runs` returns it: its id, its status,
and its tag dict (`run.data.tags`). -/
structure TrackedRun where
  run_id : String
  status : String
  tags : List (String × String)
deriving DecidableEq, Repr

/-- `Registry.run_id_from_request_id(request_id)` (src/mltemplate/core/
registry.py lines 120-128): scan the runs in search order; at the first run
whose `request_id` tag equals the argument, return its run id when its status
is `"FINISHED"` and `None` otherwise; `None` when no run matches. -/
def run_id_from_request_id (runs : List TrackedRun) (requestId : String) :
    Option String :=
  match runs with
  | [] => none
  | r :: rs =>
    if alookup "request_id" r.tags = some requestId then
      if r.status = "FINISHED" then some r.run_id else none
    else run_id_from_request_id rs requestId

/-- A registry object: its tracking-backend client plus its in-memory
snapshot (`self.models` and `self.experiments`). -/
structure Registry where
  backend : Backend
  snapshot : Snapshot

/-- `Registry.experiment_names` (property): reads only the snapshot. -/
def Registry.experiment_names (r : Registry) : List String :=
  r.snapshot.experiment_names

/-- `Registry.experiment_ids` (property): reads only the snapshot. -/
def Registry.experiment_ids (r : Registry) : List String :=
  r.snapshot.experiment_ids

/-- `Registry.experiment_id(experiment_name)` (src/mltemplate/core/
registry.py lines 98-100): `self.client.get_experiment_by_name(...)`, a call
to the tracking backend, not a snapshot lookup. -/
def Registry.experiment_id (r : Registry) (experimentName : String) :
    Except String String :=
  r.backend.getExperimentByName experimentName

/-- A FastAPI `HTTPException`: status code and `detail` message. -/
structure HttpError where
  status_code : ℕ
  detail : String
deriving DecidableEq, Repr

/-- The `LoadModelInput` pydantic model: all three fields optional. -/
structure LoadModelInput where
  model : Option String
  version : Option String
  run_id : Option String
deriving DecidableEq, Repr

/-- The `ClassifyIDInput` pydantic model. -/
structure ClassifyIDInput where
  dataset : String
  stage : String
  idx : ℤ
  model : Option String
deriving DecidableEq, Repr

/-- The `ClassifyImageInput` pydantic model: a base64 image string plus an
optional model name. -/
structure ClassifyImageInput where
  image : String
  model : Option String
deriving DecidableEq, Repr

/-- The `TrainInput` pydantic model. -/
structure TrainInput where
  request_id : String
  command_line_arguments : String
deriving DecidableEq, Repr

/-- The class-level mutable state shared by the Deployment server and the
Gateway server (both define it identically): the registry snapshot, the
`loaded_models` cache mapping a `name/version` key to a loaded model handle
(the handle is embedded as the `models:/...` uri it was loaded from), and the
`default_model` pointer. -/
structure ModelCacheState where
  registry : Snapshot
  loaded_models : List (String × String)
  default_model : Option String
deriving DecidableEq, Repr

/-- `_retrieve_model(model_name)`, identical on the Deployment and Gateway
servers: try the cache under the given name, fall back to the cache under the
default pointer (`dict.get(None)` is `None` when the pointer is unset), and
raise `ValueError("No model loaded or given.")` when both miss. -/
def retrieve_model (st : ModelCacheState) (modelName : Option String) :
    Except String String :=
  let m0 : Option String :=
    match modelName with
    | some n => alookup n st.loaded_models
    | none => none
  let m1 : Option String :=
    match m0 with
    | some m => some m
    | none =>
      match st.default_model with
      | some d => alookup d st.loaded_models
      | none => none
  match m1 with
  | none => .error "No model loaded or given."
  | some m => .ok m

/-- An outbound call a server handler makes to another process: an HTTP call
to the Training server, an HTTP call to the Deployment server, or an MLFlow
artifact load (`mlflow.pyfunc.load_model`). -/
inductive ExternalCall where
  | trainingServer (route : String)
  | deploymentServer (route : String)
  | mlflowLoadModel (uri : String)
deriving DecidableEq, Repr

/-- Whether an outbound call is an HTTP call to the Deployment server. -/
def isDeploymentCall : ExternalCall → Bool
  | .deploymentServer _ => true
  | _ => false

/-- Result of one server handler: the HTTP outcome, the server state after
the handler, and the outbound calls the handler made. -/
structure Step (ε α : Type) where
  result : Except ε α
  state : ModelCacheState
  calls : List ExternalCall
deriving Repr

/-- Python `f"{x}"` on an `Optional[str]`. -/
def optStr : Option String → String
  | some s => s
  | none => "None"

/-- The `/load-model` handler body, identical on the Deployment server
(src/mltemplate/backend/deployment/deployment_server.py lines 72-93) and the
Gateway server (src/mltemplate/backend/gateway/gateway_server.py lines
129-150): reject with a 400 when model/version and run_id are all missing;
resolve a given run_id through the server's own registry snapshot (400 when
unknown); load the model from MLFlow (`loader` embeds
`mlflow.pyfunc.load_model`, whose uncaught failure surfaces as a 500), store
it in the server's own `loaded_models` cache and point `default_model` at it.
No HTTP call to any other serving process is made. -/
def load_model_handler (loader : String → Except String String)
    (st : ModelCacheState) (p : LoadModelInput) : Step HttpError Bool :=
  if (p.model = none ∨ p.version = none) ∧ p.run_id = none then
    { result := .error
        { status_code := 400
          detail := "Must specify either (1) model and version or (2) run_id." }
      state := st, calls := [] }
  else
    match
      (match p.run_id with
       | some rid =>
         (match st.registry.model_name_and_version rid with
          | .error msg => Except.error { status_code := 400, detail := msg }
          | .ok mnv => Except.ok mnv : Except HttpError String)
       | none => Except.ok (optStr p.model ++ "/" ++ optStr p.version))
    with
    | .error e => { result := .error e, state := st, calls := [] }
    | .ok mnv =>
      match loader ("models:/" ++ mnv) with
      | .error msg =>
        { result := .error { status_code := 500, detail := msg }
          state := st, calls := [.mlflowLoadModel ("models:/" ++ mnv)] }
      | .ok handle =>
        { result := .ok true
          state := { st with
            loaded_models := upsert mnv handle st.loaded_models
            default_model := some mnv }
          calls := [.mlflowLoadModel ("models:/" ++ mnv)] }

/-- The `/classify-id` handler body, identical on the Deployment and Gateway
servers: resolve the model through the server's own cache via
`_retrieve_model`, then run inference locally on a dataset sample.  The
result carries the handle of the model that served the request (the
prediction itself is neural-network inference on that model and is not
modelled); the handler mutates no state and makes no outbound call. -/
def classify_id_handler (st : ModelCacheState) (p : ClassifyIDInput) :
    Step String String :=
  { result := retrieve_model st p.model, state := st, calls := [] }

/-- The `/classify-image` handler body, identical on the Deployment and
Gateway servers: resolve the model through the server's own cache via
`_retrieve_model`, then run inference locally on the decoded image.  The
result carries the handle of the model that served the request; the handler
mutates no state and makes no outbound call. -/
def classify_image_handler (st : ModelCacheState) (p : ClassifyImageInput) :
    Step String String :=
  { result := retrieve_model st p.model, state := st, calls := [] }

/-- The Gateway `/train` handler (gateway_server.py lines 192-200): one HTTP
call to the Training server's `start_training_run`, whose response is passed
back; no state change. -/
def gateway_train_handler (st : ModelCacheState) (_payload : TrainInput)
    (trainingResponse : String) : Step HttpError String :=
  { result := .ok trainingResponse, state := st
    calls := [.trainingServer "start_training_run"] }

/-- The single synchronous HTTP request a connection-client method performs:
`requests.request(method, host + route, ..., timeout=...)`. -/
structure HttpRequest where
  http_method : String
  route : String
  timeout : ℕ
deriving DecidableEq, Repr

/-- The raw HTTP response a connection-client method observes. -/
structure HttpResponse where
  status_code : ℕ
  content : String
deriving DecidableEq, Repr

/-- What a connection-client method does with a response: raise
`HTTPException(status_code, content)` or parse the body as the successful
result (`json.loads(response.content)` and any decoding built on it). -/
inductive ClientOutcome where
  | raised (status_code : ℕ) (body : String)
  | parsed (body : String)
deriving DecidableEq, Repr

/-- The response-handling snippet shared by most client methods:
`if response.status_code != 200: raise HTTPException(...)` then parse. -/
def raiseForStatusThenParse (r : HttpResponse) : ClientOutcome :=
  if r.status_code ≠ 200 then .raised r.status_code r.content
  else .parsed r.content

namespace GatewayClient

/-- Gateway client `commands()`: its one request. -/
def commands_request : HttpRequest := ⟨"POST", "commands", 60⟩

/-- Gateway client `chat(text)`: its one request. -/
def chat_request : HttpRequest := ⟨"POST", "chat", 60⟩

/-- Gateway client `models()`: its one request. -/
def models_request : HttpRequest := ⟨"POST", "models", 60⟩

/-- Gateway client `list_experiments()`: its one request. -/
def list_experiments_request : HttpRequest := ⟨"POST", "fetch-experiments", 60⟩

/-- Gateway client `list_runs(experiment)`: its one request. -/
def list_runs_request : HttpRequest := ⟨"POST", "fetch-runs", 60⟩

/-- Gateway client `list_models()`: its one request. -/
def list_models_request : HttpRequest := ⟨"POST", "fetch-models", 60⟩

/-- Gateway client `best_model_for_experiment(name)`: its one request. -/
def best_model_for_experiment_request : HttpRequest :=
  ⟨"POST", "best-model-for-experiment", 60⟩

/-- Gateway client `load_model(...)`: its one request. -/
def load_model_request : HttpRequest := ⟨"POST", "load-model", 60⟩

/-- Gateway client `classify_id(...)`: its one request. -/
def classify_id_request : HttpRequest := ⟨"POST", "classify-id", 60⟩

/-- Gateway client `classify_image(...)`: its one request. -/
def classify_image_request : HttpRequest := ⟨"POST", "classify-image", 60⟩

/-- Gateway client `train(...)` (gateway/connection_client.py lines 121-137):
its one request, with `timeout=24 * 60 * 60`. -/
def train_request : HttpRequest := ⟨"POST", "train", 24 * 60 * 60⟩

/-- Gateway client `commands()` response handling. -/
def commands_response (r : HttpResponse) : ClientOutcome := raiseForStatusThenParse r

/-- Gateway client `chat()` response handling. -/
def chat_response (r : HttpResponse) : ClientOutcome := raiseForStatusThenParse r

/-- Gateway client `models()` response handling. -/
def models_response (r : HttpResponse) : ClientOutcome := raiseForStatusThenParse r

/-- Gateway client `list_experiments()` response handling. -/
def list_experiments_response (r : HttpResponse) : ClientOutcome :=
  raiseForStatusThenParse r

/-- Gateway client `list_runs()` response handling. -/
def list_runs_response (r : HttpResponse) : ClientOutcome := raiseForStatusThenParse r

/-- Gateway client `list_models()` response handling. -/
def list_models_response (r : HttpResponse) : ClientOutcome := raiseForStatusThenParse r

/-- Gateway client `best_model_for_experiment()` response handling. -/
def best_model_for_experiment_response (r : HttpResponse) : ClientOutcome :=
  raiseForStatusThenParse r

/-- Gateway client `load_model()` response handling. -/
def load_model_response (r : HttpResponse) : ClientOutcome := raiseForStatusThenParse r

/-- Gateway client `classify_id()` response handling (gateway/
connection_client.py lines 88-108): `json.loads(response.content)` with no
status-code check, then field extraction and base64 decoding. -/
def classify_id_response (r : HttpResponse) : ClientOutcome :=
  ClientOutcome.parsed r.content

/-- Gateway client `classify_image()` response handling. -/
def classify_image_response (r : HttpResponse) : ClientOutcome :=
  raiseForStatusThenParse r

/-- Gateway client `train()` response handling. -/
def train_response (r : HttpResponse) : ClientOutcome := raiseForStatusThenParse r

end GatewayClient

namespace DeploymentClient

/-- Deployment client `load_model(...)`: its one request. -/
def load_model_request : HttpRequest := ⟨"POST", "load-model", 60⟩

/-- Deployment client `classify_id(...)`: its one request. -/
def classify_id_request : HttpRequest := ⟨"POST", "classify-id", 60⟩

/-- Deployment client `classify_image(...)`: its one request. -/
def classify_image_request : HttpRequest := ⟨"POST", "classify-image", 60⟩

/-- Deployment client `load_model()` response handling. -/
def load_model_response (r : HttpResponse) : ClientOutcome := raiseForStatusThenParse r

/-- Deployment client `classify_id()` response handling (deployment/
connection_client.py lines 34-54): `json.loads(response.content)` with no
status-code check. -/
def classify_id_response (r : HttpResponse) : ClientOutcome :=
  ClientOutcome.parsed r.content

/-- Deployment client `classify_image()` response handling. -/
def classify_image_response (r : HttpResponse) : ClientOutcome :=
  raiseForStatusThenParse r

end DeploymentClient

namespace TrainingClient

/-- Training client `start_training_run(...)` (training/connection_client.py
lines 14-25): its one request, with `timeout=24 * 24 * 60`. -/
def start_training_run_request : HttpRequest :=
  ⟨"POST", "start_training_run", 24 * 24 * 60⟩

/-- Training client `start_training_run()` response handling. -/
def start_training_run_response (r : HttpResponse) : ClientOutcome :=
  raiseForStatusThenParse r

end TrainingClient

/-- The Discord client's message-splitting routine (discord_client.py, e.g.
lines 293-298 and 347-352): `num_chunks = max(ceil(len(text) / 2000), 1)`,
then one send of `text[idx*2000 : (idx+1)*2000]` per chunk index.  The text
is embedded as its list of characters; `(n + 1999) / 2000` is the natural
ceiling of `n / 2000`. -/
def chunkMessage (text : List Char) : List (List Char) :=
  let numChunks := max ((text.length + 1999) / 2000) 1
  (List.range numChunks).map fun idx => (text.drop (idx * 2000)).take 2000

/-! ### Concrete fixtures used by counterexamples, witnesses and scenarios -/

/-- A registered model belonging to experiment `"E1"`. -/
def mlpModel : ModelRecord :=
  { name := "MLP", version := "1", dataset := "MNIST", status := "READY"
    train_acc := 1, val_acc := 1, test_acc := 1
    experiment_id := "E1", run_id := "a" }

/-- A snapshot holding one model (in experiment `"E1"`) and two known
experiments, `"E1"` and `"E2"`; experiment `"E2"` has no model. -/
def oneModelTwoExperiments : Snapshot :=
  { models := [("a", mlpModel)]
    experiments := [("E1", "mnist"), ("E2", "cifar")] }

/-- A second registered model, the one a re-fetch would return. -/
def cnnModel : ModelRecord :=
  { name := "CNN", version := "2", dataset := "MNIST", status := "READY"
    train_acc := 1, val_acc := 1, test_acc := 1
    experiment_id := "E1", run_id := "b" }

/-- A backend whose models fetch succeeds (returning `cnnModel`) and whose
experiments fetch fails: the tracking backend becomes unreachable between the
two fetches of one `refresh()`. -/
def halfDownBackend : Backend :=
  { fetchModels := .ok [("b", cnnModel)]
    fetchExperiments := .error "BackendUnavailable"
    getExperimentByName := fun _ => .error "BackendUnavailable" }

/-- A healthy backend mapping experiment name `"mnist"` to id `"E1"`. -/
def backendA : Backend :=
  { fetchModels := .ok [("a", mlpModel)]
    fetchExperiments := .ok [("E1", "mnist")]
    getExperimentByName := fun n => if n = "mnist" then .ok "E1" else .error "not found" }

/-- A backend identical to `backendA` except that it maps experiment name
`"mnist"` to id `"E9"`. -/
def backendB : Backend :=
  { fetchModels := .ok [("a", mlpModel)]
    fetchExperiments := .ok [("E1", "mnist")]
    getExperimentByName := fun n => if n = "mnist" then .ok "E9" else .error "not found" }

/-- An MLFlow loader for which every model uri loads successfully; the handle
is the uri itself. -/
def okLoader : String → Except String String := fun uri => .ok uri

/-- A fresh server state: empty model cache, no default pointer. -/
def freshState : ModelCacheState :=
  { registry := oneModelTwoExperiments, loaded_models := [], default_model := none }

/-- A load-model payload giving model `"MLP"` and version `"1"`. -/
def mlpPayload : LoadModelInput :=
  { model := some "MLP", version := some "1", run_id := none }

/-- A load-model payload with model, version and run_id all absent. -/
def emptyLoadPayload : LoadModelInput :=
  { model := none, version := none, run_id := none }

/-- A classify-id payload with no model argument. -/
def defaultClassifyPayload : ClassifyIDInput :=
  { dataset := "MNIST", stage := "test", idx := 0, model := none }

/-- A run tagged with request id `"123"` that is still running. -/
def runningRun : TrackedRun :=
  { run_id := "r1", status := "RUNNING", tags := [("request_id", "123")] }

/-- The same run once the training process has finished. -/
def finishedRun : TrackedRun :=
  { run_id := "r1", status := "FINISHED", tags := [("request_id", "123")] }

/-- A non-200 HTTP response. -/
def notFoundResponse : HttpResponse := { status_code := 404, content := "not found" }

/-- A 500 HTTP response, as a failing Deployment or Gateway server returns. -/
def errorResponse : HttpResponse :=
  { status_code := 500, content := "Internal Server Error" }

/-! ### Helper lemmas -/

theorem alookup_fst_of_mem_nodup {β : Type} :
    ∀ (l : List (String × β)) (p : String × β),
      (l.map Prod.fst).Nodup → p ∈ l → alookup p.1 l = some p.2 := by
  intro l
  induction l with
  | nil => intro p _ hp; cases hp
  | cons q t ih =>
    intro p hnd hp
    simp only [List.map_cons, List.nodup_cons] at hnd
    rcases List.mem_cons.mp hp with rfl | hpt
    · simp [alookup]
    · by_cases hqp : q.1 = p.1
      · exact absurd (hqp ▸ List.mem_map_of_mem Prod.fst hpt) hnd.1
      · simpa [alookup, hqp] using ih p hnd.2 hpt

theorem alookup_upsert_self (k v : String) :
    ∀ l : List (String × String), alookup k (upsert k v l) = some v := by
  intro l
  induction l with
  | nil => simp [alookup, upsert]
  | cons p ps ih =>
    by_cases h : p.1 = k
    · simp [alookup, upsert, h]
    · simp [alookup, upsert, h, ih]

theorem alookup_upsert_isSome (k v j : String) :
    ∀ l : List (String × String),
      (alookup j l).isSome → (alookup j (upsert k v l)).isSome := by
  intro l
  induction l with
  | nil => simp [alookup]
  | cons p ps ih =>
    intro hj
    by_cases hpk : p.1 = k
    · by_cases hkj : k = j
      · simp [upsert, hpk, alookup, hkj]
      · have hpj : ¬ p.1 = j := by rw [hpk]; exact hkj
        simp only [alookup, hpj, if_false] at hj
        simp [upsert, hpk, alookup, hkj, hj]
    · by_cases hpj : p.1 = j
      · have hjk : ¬ j = k := fun h => hpk (hpj.trans h)
        simp [upsert, hpk, alookup, hpj, hjk]
      · simp only [alookup, hpj, if_false] at hj
        simp [upsert, hpk, alookup, hpj, ih hj]

theorem foldl_pickMax_mem (key : α → ℚ) :
    ∀ (xs : List α) (x : α), xs.foldl (pickMax key) x ∈ x :: xs := by
  intro xs
  induction xs with
  | nil => intro x; simp [List.foldl]
  | cons y ys ih =>
    intro x
    have h := ih (pickMax key x y)
    simp only [List.foldl]
    rcases List.mem_cons.mp h with h | h
    · rw [h]
      unfold pickMax
      by_cases hk : key x < key y
      · simp [hk]
      · simp [hk]
    · exact List.mem_cons_of_mem x (List.mem_cons_of_mem y h)

theorem foldl_pickMax_ge (key : α → ℚ) :
    ∀ (xs : List α) (x : α) (y : α), y ∈ x :: xs →
      key y ≤ key (xs.foldl (pickMax key) x) := by
  intro xs
  induction xs with
  | nil =>
    intro x y hy
    rcases List.mem_cons.mp hy with rfl | h
    · exact le_refl _
    · cases h
  | cons z zs ih =>
    intro x y hy
    simp only [List.foldl]
    have hstep : key x ≤ key (pickMax key x z) ∧ key z ≤ key (pickMax key x z) := by
      unfold pickMax
      by_cases hk : key x < key z
      · simp [hk, le_of_lt hk]
      · simp [hk, le_of_not_lt hk]
    have hbase : key (pickMax key x z) ≤ key (zs.foldl (pickMax key) (pickMax key x z)) :=
      ih (pickMax key x z) (pickMax key x z) (List.mem_cons_self _ _)
    rcases List.mem_cons.mp hy with rfl | hy
    · exact le_trans hstep.1 hbase
    · rcases List.mem_cons.mp hy with rfl | hy
      · exact le_trans hstep.2 hbase
      · exact ih (pickMax key x z) y (List.mem_cons_of_mem _ hy)

/-! ### C2: refresh atomicity -/

/-- C2 counterexample: with a backend whose models fetch succeeds and whose
experiments fetch then fails, `refresh()` fails yet leaves the models mapping
already replaced (and only the experiments mapping retained), so the whole
snapshot is not atomic with respect to a failing re-fetch. -/
theorem refresh_partial_update_counterexample :
    (Registry.refresh halfDownBackend oneModelTwoExperiments).2 = some "BackendUnavailable" ∧
    (Registry.refresh halfDownBackend oneModelTwoExperiments).1.models ≠
      oneModelTwoExperiments.models ∧
    (Registry.refresh halfDownBackend oneModelTwoExperiments).1.experiments =
      oneModelTwoExperiments.experiments := by
  refine ⟨rfl, ?_, rfl⟩
  decide

/-- C2 amended: `refresh()` is all-or-nothing per entity class, not per
snapshot.  If the models fetch fails, the exception propagates before either
assignment and the whole previous snapshot is retained; if the models fetch
succeeds and the experiments fetch fails, the models mapping has already been
replaced by the newly fetched value while the experiments mapping retains its
previous value; if both succeed, both are replaced. -/
theorem refresh_per_entity_class (b : Backend) (s : Snapshot) :
    (∀ e, b.fetchModels = .error e → Registry.refresh b s = (s, some e)) ∧
    (∀ ms e, b.fetchModels = .ok ms → b.fetchExperiments = .error e →
      Registry.refresh b s =
        ({ models := ms, experiments := s.experiments }, some e)) ∧
    (∀ ms es, b.fetchModels = .ok ms → b.fetchExperiments = .ok es →
      Registry.refresh b s = ({ models := ms, experiments := es }, none)) := by
  refine ⟨?_, ?_, ?_⟩
  · intro e he; simp [Registry.refresh, he]
  · intro ms e hm he; simp [Registry.refresh, hm, he]
  · intro ms es hm he; simp [Registry.refresh, hm, he]

/-! ### C5: snapshot lookups and the experiment_id backend call -/

/-- C5 counterexample: two registries with identical snapshots but different
backend states give different results for `experiment_id("mnist")` — the
operation is a call to the tracking backend, not a pure snapshot lookup. -/
theorem experiment_id_backend_call_counterexample :
    (Registry.mk backendA oneModelTwoExperiments).snapshot =
      (Registry.mk backendB oneModelTwoExperiments).snapshot ∧
    Registry.experiment_id (Registry.mk backendA oneModelTwoExperiments) "mnist" =
      .ok "E1" ∧
    Registry.experiment_id (Registry.mk backendB oneModelTwoExperiments) "mnist" =
      .ok "E9" ∧
    (Except.ok "E1" : Except String String) ≠ .ok "E9" := by
  refine ⟨rfl, rfl, rfl, fun hcontra => absurd (Except.ok.inj hcontra) (by decide)⟩

/-- C5 amended: `experiment_names()` and `experiment_ids()` are pure lookups
against the in-memory snapshot — two registries with equal snapshots agree on
them whatever their backend states — while `experiment_id(experiment_name)`
is determined by the backend's `get_experiment_by_name` call, not by the
snapshot. -/
theorem snapshot_lookups_pure (r1 r2 : Registry)
    (h : r1.snapshot = r2.snapshot) :
    r1.experiment_names = r2.experiment_names ∧
    r1.experiment_ids = r2.experiment_ids ∧
    (∀ n, Registry.experiment_id r1 n = r1.backend.getExperimentByName n) := by
  refine ⟨?_, ?_, fun _ => rfl⟩
  · simp [Registry.experiment_names, h]
  · simp [Registry.experiment_ids, h]

/-- C5 witness: `snapshot_lookups_pure` applied to two concrete registries
sharing a snapshot. -/
theorem snapshot_lookups_pure_witness :
    (Registry.mk backendA oneModelTwoExperiments).experiment_names =
      (Registry.mk backendB oneModelTwoExperiments).experiment_names ∧
    (Registry.mk backendA oneModelTwoExperiments).experiment_ids =
      (Registry.mk backendB oneModelTwoExperiments).experiment_ids ∧
    (∀ n, Registry.experiment_id (Registry.mk backendA oneModelTwoExperiments) n =
      backendA.getExperimentByName n) :=
  snapshot_lookups_pure
    (Registry.mk backendA oneModelTwoExperiments)
    (Registry.mk backendB oneModelTwoExperiments) rfl

/-! ### C6: connection-client timeouts -/

/-- C6: the training client's `start_training_run` passes
`timeout=24 * 24 * 60` — 34560 seconds, not the 24 hours (86400 seconds) the
spec states — while the gateway client's `train` passes `24 * 60 * 60` and
the interactive methods pass 60. -/
theorem connection_client_timeouts :
    TrainingClient.start_training_run_request.timeout = 34560 ∧
    TrainingClient.start_training_run_request.timeout ≠ 24 * 60 * 60 ∧
    GatewayClient.train_request.timeout = 24 * 60 * 60 ∧
    GatewayClient.commands_request.timeout = 60 ∧
    GatewayClient.chat_request.timeout = 60 ∧
    GatewayClient.models_request.timeout = 60 ∧
    GatewayClient.list_experiments_request.timeout = 60 ∧
    GatewayClient.list_runs_request.timeout = 60 ∧
    GatewayClient.list_models_request.timeout = 60 ∧
    GatewayClient.best_model_for_experiment_request.timeout = 60 ∧
    GatewayClient.load_model_request.timeout = 60 ∧
    GatewayClient.classify_id_request.timeout = 60 ∧
    GatewayClient.classify_image_request.timeout = 60 ∧
    DeploymentClient.load_model_request.timeout = 60 ∧
    DeploymentClient.classify_id_request.timeout = 60 ∧
    DeploymentClient.classify_image_request.timeout = 60 := by
  decide

/-! ### C7: non-200 handling in the connection clients -/

/-- C7 counterexample: on a 500 response, `classify_id` on both the gateway
and the deployment connection clients parses the raw body as if it were a
successful result instead of raising an error carrying the status code. -/
theorem classify_id_no_status_check_counterexample :
    GatewayClient.classify_id_response errorResponse =
      ClientOutcome.parsed "Internal Server Error" ∧
    DeploymentClient.classify_id_response errorResponse =
      ClientOutcome.parsed "Internal Server Error" ∧
    ClientOutcome.parsed "Internal Server Error" ≠
      ClientOutcome.raised 500 "Internal Server Error" := by
  refine ⟨rfl, rfl, ?_⟩
  decide

/-- C7 amended: on a non-200 response every connection-client method except
`classify_id` raises an error carrying the status code and the raw body and
performs no retry; `classify_id` (on both the gateway and the deployment
clients) skips the status check and parses the body unconditionally. -/
theorem non200_raises_except_classify_id (r : HttpResponse)
    (h : r.status_code ≠ 200) :
    GatewayClient.commands_response r = .raised r.status_code r.content ∧
    GatewayClient.chat_response r = .raised r.status_code r.content ∧
    GatewayClient.models_response r = .raised r.status_code r.content ∧
    GatewayClient.list_experiments_response r = .raised r.status_code r.content ∧
    GatewayClient.list_runs_response r = .raised r.status_code r.content ∧
    GatewayClient.list_models_response r = .raised r.status_code r.content ∧
    GatewayClient.best_model_for_experiment_response r =
      .raised r.status_code r.content ∧
    GatewayClient.load_model_response r = .raised r.status_code r.content ∧
    GatewayClient.classify_image_response r = .raised r.status_code r.content ∧
    GatewayClient.train_response r = .raised r.status_code r.content ∧
    DeploymentClient.load_model_response r = .raised r.status_code r.content ∧
    DeploymentClient.classify_image_response r = .raised r.status_code r.content ∧
    TrainingClient.start_training_run_response r = .raised r.status_code r.content ∧
    GatewayClient.classify_id_response r = .parsed r.content ∧
    DeploymentClient.classify_id_response r = .parsed r.content := by
  have hr : raiseForStatusThenParse r = .raised r.status_code r.content := by
    simp [raiseForStatusThenParse, h]
  exact ⟨hr, hr, hr, hr, hr, hr, hr, hr, hr, hr, hr, hr, hr, rfl, rfl⟩

/-- C7 witness: `non200_raises_except_classify_id` at a concrete 404
response. -/
theorem non200_raises_witness :
    GatewayClient.commands_response notFoundResponse =
      .raised notFoundResponse.status_code notFoundResponse.content ∧
    GatewayClient.chat_response notFoundResponse =
      .raised notFoundResponse.status_code notFoundResponse.content ∧
    GatewayClient.models_response notFoundResponse =
      .raised notFoundResponse.status_code notFoundResponse.content ∧
    GatewayClient.list_experiments_response notFoundResponse =
      .raised notFoundResponse.status_code notFoundResponse.content ∧
    GatewayClient.list_runs_response notFoundResponse =
      .raised notFoundResponse.status_code notFoundResponse.content ∧
    GatewayClient.list_models_response notFoundResponse =
      .raised notFoundResponse.status_code notFoundResponse.content ∧
    GatewayClient.best_model_for_experiment_response notFoundResponse =
      .raised notFoundResponse.status_code notFoundResponse.content ∧
    GatewayClient.load_model_response notFoundResponse =
      .raised notFoundResponse.status_code notFoundResponse.content ∧
    GatewayClient.classify_image_response notFoundResponse =
      .raised notFoundResponse.status_code notFoundResponse.content ∧
    GatewayClient.train_response notFoundResponse =
      .raised notFoundResponse.status_code notFoundResponse.content ∧
    DeploymentClient.load_model_response notFoundResponse =
      .raised notFoundResponse.status_code notFoundResponse.content ∧
    DeploymentClient.classify_image_response notFoundResponse =
      .raised notFoundResponse.status_code notFoundResponse.content ∧
    TrainingClient.start_training_run_response notFoundResponse =
      .raised notFoundResponse.status_code notFoundResponse.content ∧
    GatewayClient.classify_id_response notFoundResponse =
      .parsed notFoundResponse.content ∧
    DeploymentClient.classify_id_response notFoundResponse =
      .parsed notFoundResponse.content :=
  non200_raises_except_classify_id notFoundResponse (by decide)

/-! ### C9: load-model payload validation -/

/-- C9: on any server state and with any MLFlow loader, a load-model payload
with model, version and run_id all absent is rejected with status 400 — a
400-class code, not a 500-class one — and the descriptive detail message,
on the Deployment server and on the Gateway server alike (both route the
payload through the same handler body). -/
theorem load_model_missing_fields_400
    (loader : String → Except String String)
    (deploymentState gatewayState : ModelCacheState) :
    (load_model_handler loader deploymentState emptyLoadPayload).result =
      .error { status_code := 400
               detail := "Must specify either (1) model and version or (2) run_id." } ∧
    (load_model_handler loader gatewayState emptyLoadPayload).result =
      .error { status_code := 400
               detail := "Must specify either (1) model and version or (2) run_id." } ∧
    (400 : ℕ) < 500 ∧ (400 : ℕ) ≥ 400 := by
  refine ⟨?_, ?_, by decide, by decide⟩ <;>
    simp [load_model_handler, emptyLoadPayload]

/-! ### C3: the Gateway serves the model routes itself -/

/-- C3 counterexample: a concrete `/load-model` request on the Gateway makes
no HTTP call to the Deployment server — its only outbound call is the MLFlow
artifact load — and it populates the Gateway's own in-process cache, from
which a subsequent `/classify-id` request (no outbound call at all) is then
served. -/
theorem gateway_no_deployment_proxy_counterexample :
    (load_model_handler okLoader freshState mlpPayload).calls =
      [ExternalCall.mlflowLoadModel "models:/MLP/1"] ∧
    (load_model_handler okLoader freshState mlpPayload).calls.filter
      isDeploymentCall = [] ∧
    (load_model_handler okLoader freshState mlpPayload).result = .ok true ∧
    (load_model_handler okLoader freshState mlpPayload).state.loaded_models =
      [("MLP/1", "models:/MLP/1")] ∧
    (load_model_handler okLoader freshState mlpPayload).state.default_model =
      some "MLP/1" ∧
    (classify_id_handler (load_model_handler okLoader freshState mlpPayload).state
      defaultClassifyPayload).calls = [] ∧
    (classify_id_handler (load_model_handler okLoader freshState mlpPayload).state
      defaultClassifyPayload).result = .ok "models:/MLP/1" :=
  ⟨rfl, rfl, rfl, rfl, rfl, rfl, rfl⟩

/-- C3 amended: the Gateway's `/load-model`, `/classify-id` and
`/classify-image` handlers serve every request from the Gateway's own
in-process model cache (the same request and response shapes as the
Deployment server's handlers, whose bodies are identical) and never make an
HTTP call to the Deployment server; among the model-related flows only
`/train` is proxied, with one HTTP call to the Training server whose
response is passed back. -/
theorem gateway_serves_model_routes_locally
    (loader : String → Except String String) (st : ModelCacheState)
    (plm : LoadModelInput) (pcid : ClassifyIDInput) (pcim : ClassifyImageInput)
    (pt : TrainInput) (resp : String) :
    (load_model_handler loader st plm).calls.filter isDeploymentCall = [] ∧
    (classify_id_handler st pcid).calls = [] ∧
    (classify_image_handler st pcim).calls = [] ∧
    (classify_id_handler st pcid).result = retrieve_model st pcid.model ∧
    (classify_image_handler st pcim).result = retrieve_model st pcim.model ∧
    (gateway_train_handler st pt resp).result = .ok resp ∧
    (gateway_train_handler st pt resp).calls =
      [ExternalCall.trainingServer "start_training_run"] := by
  refine ⟨?_, rfl, rfl, rfl, rfl, rfl, rfl⟩
  unfold load_model_handler
  split
  · rfl
  · split
    · rfl
    · split <;> simp [isDeploymentCall]

/-! ### C4: run_id_from_request_id -/

theorem run_id_sound (runs : List TrackedRun) (requestId rid : String) :
    run_id_from_request_id runs requestId = some rid →
    ∃ r ∈ runs, alookup "request_id" r.tags = some requestId ∧
      r.status = "FINISHED" ∧ r.run_id = rid := by
  induction runs with
  | nil => intro h; simp [run_id_from_request_id] at h
  | cons r rs ih =>
    intro h
    by_cases htag : alookup "request_id" r.tags = some requestId
    · by_cases hst : r.status = "FINISHED"
      · simp only [run_id_from_request_id, htag, hst, if_true,
          Option.some.injEq] at h
        exact ⟨r, List.mem_cons_self _ _, htag, hst, h⟩
      · simp [run_id_from_request_id, htag, hst] at h
    · simp only [run_id_from_request_id, htag, if_false] at h
      obtain ⟨q, hq, h1, h2, h3⟩ := ih h
      exact ⟨q, List.mem_cons_of_mem _ hq, h1, h2, h3⟩

theorem run_id_none_of_no_match (runs : List TrackedRun) (requestId : String) :
    (∀ r ∈ runs, alookup "request_id" r.tags ≠ some requestId) →
    run_id_from_request_id runs requestId = none := by
  induction runs with
  | nil => intro _; rfl
  | cons r rs ih =>
    intro h
    have hr := h r (List.mem_cons_self _ _)
    simp only [run_id_from_request_id, hr, if_false]
    exact ih fun q hq => h q (List.mem_cons_of_mem _ hq)

theorem run_id_none_of_unfinished (runs : List TrackedRun) (requestId : String) :
    (∀ r ∈ runs, alookup "request_id" r.tags = some requestId →
      r.status ≠ "FINISHED") →
    run_id_from_request_id runs requestId = none := by
  induction runs with
  | nil => intro _; rfl
  | cons r rs ih =>
    intro h
    by_cases htag : alookup "request_id" r.tags = some requestId
    · have hst := h r (List.mem_cons_self _ _) htag
      simp [run_id_from_request_id, htag, hst]
    · simp only [run_id_from_request_id, htag, if_false]
      exact ih fun q hq ht => h q (List.mem_cons_of_mem _ hq) ht

/-- C4: `run_id_from_request_id` returns a run id only for a run whose
`request_id` tag matches and whose status is `"FINISHED"`; it returns the
`None` sentinel both when no run carries the tag and when every tag-matching
run is not yet finished, and the two `None` cases are the same value.
Concretely: with no tagged run the call returns `None`, with the tagged run
still `"RUNNING"` it returns `None`, and once that run is `"FINISHED"` the
same call returns its run id. -/
theorem run_id_from_request_id_spec
    (runs : List TrackedRun) (requestId rid : String) :
    (run_id_from_request_id runs requestId = some rid →
      ∃ r ∈ runs, alookup "request_id" r.tags = some requestId ∧
        r.status = "FINISHED" ∧ r.run_id = rid) ∧
    ((∀ r ∈ runs, alookup "request_id" r.tags ≠ some requestId) →
      run_id_from_request_id runs requestId = none) ∧
    ((∀ r ∈ runs, alookup "request_id" r.tags = some requestId →
        r.status ≠ "FINISHED") →
      run_id_from_request_id runs requestId = none) ∧
    run_id_from_request_id [] "123" = none ∧
    run_id_from_request_id [runningRun] "123" = none ∧
    run_id_from_request_id [finishedRun] "123" = some "r1" :=
  ⟨run_id_sound runs requestId rid,
   run_id_none_of_no_match runs requestId,
   run_id_none_of_unfinished runs requestId, rfl, rfl, rfl⟩

/-! ### C8: loaded-model cache and default pointer -/

/-- C8: a valid load-model request — a (model, version) pair, or a run_id
known to the registry snapshot, whose MLFlow load succeeds — stores the
loaded model in the cache under its `name/version` key and points
`default_model` at that key; a classify request with no model argument
resolves through the default pointer; a classify request when no model has
ever been loaded (empty cache, unset pointer) fails with the
`"No model loaded or given."` error; and no handler removes a cache entry or
clears the default pointer (load-model only upserts and re-points, classify
leaves the state untouched). -/
theorem load_model_cache_invariants
    (loader : String → Except String String) (st : ModelCacheState)
    (p : LoadModelInput) (pcid : ClassifyIDInput) (pcim : ClassifyImageInput) :
    (∀ m v hdl, p.model = some m → p.version = some v → p.run_id = none →
      loader ("models:/" ++ (m ++ "/" ++ v)) = .ok hdl →
      (load_model_handler loader st p).result = .ok true ∧
      alookup (m ++ "/" ++ v)
        (load_model_handler loader st p).state.loaded_models = some hdl ∧
      (load_model_handler loader st p).state.default_model =
        some (m ++ "/" ++ v)) ∧
    (∀ rid rec hdl, p.run_id = some rid →
      alookup rid st.registry.models = some rec →
      loader ("models:/" ++ (rec.name ++ "/" ++ rec.version)) = .ok hdl →
      (load_model_handler loader st p).result = .ok true ∧
      alookup (rec.name ++ "/" ++ rec.version)
        (load_model_handler loader st p).state.loaded_models = some hdl ∧
      (load_model_handler loader st p).state.default_model =
        some (rec.name ++ "/" ++ rec.version)) ∧
    (∀ d hdl, pcid.model = none → st.default_model = some d →
      alookup d st.loaded_models = some hdl →
      (classify_id_handler st pcid).result = .ok hdl) ∧
    (st.loaded_models = [] → st.default_model = none →
      (classify_id_handler st pcid).result = .error "No model loaded or given." ∧
      (classify_image_handler st pcim).result =
        .error "No model loaded or given.") ∧
    (∀ k, (alookup k st.loaded_models).isSome →
      (alookup k (load_model_handler loader st p).state.loaded_models).isSome) ∧
    (st.default_model.isSome →
      (load_model_handler loader st p).state.default_model.isSome) ∧
    (classify_id_handler st pcid).state = st ∧
    (classify_image_handler st pcim).state = st := by
  refine ⟨?_, ?_, ?_, ?_, ?_, ?_, rfl, rfl⟩
  · intro m v hdl hm hv hr hload
    simp [load_model_handler, hm, hv, hr, optStr, hload, alookup_upsert_self]
  · intro rid rec hdl hr hlk hload
    simp [load_model_handler, hr, Snapshot.model_name_and_version, hlk, hload,
      alookup_upsert_self]
  · intro d hdl hmodel hdflt hlk
    simp [classify_id_handler, retrieve_model, hmodel, hdflt, hlk]
  · intro hempty hnone
    cases hc : pcid.model <;> cases hc2 : pcim.model <;>
      simp [classify_id_handler, classify_image_handler, retrieve_model,
        hempty, hnone, hc, hc2, alookup]
  · intro k hk
    unfold load_model_handler
    split
    · exact hk
    · split
      · exact hk
      · split
        · exact hk
        · exact alookup_upsert_isSome _ _ k st.loaded_models hk
  · intro hd
    unfold load_model_handler
    split
    · exact hd
    · split
      · exact hd
      · split
        · exact hd
        · rfl

/-! ### C10: Discord message chunking -/

theorem join_chunks (m : ℕ) :
    ∀ (k : ℕ) (l : List Char), l.length ≤ k * m →
      ((List.range k).map fun i => (l.drop (i * m)).take m).flatten = l := by
  intro k
  induction k with
  | zero =>
    intro l hl
    simp only [Nat.zero_mul, Nat.le_zero] at hl
    simp [List.eq_nil_of_length_eq_zero hl]
  | succ k ih =>
    intro l hl
    rw [Nat.succ_mul] at hl
    rw [List.range_succ_eq_map]
    simp only [List.map_cons, List.map_map, List.flatten_cons, Nat.zero_mul,
      List.drop_zero, Function.comp_def, Nat.succ_eq_add_one]
    have hshift : ((List.range k).map fun i => (l.drop ((i + 1) * m)).take m)
        = (List.range k).map fun i => ((l.drop m).drop (i * m)).take m := by
      apply List.map_congr_left
      intro i _
      rw [List.drop_drop, Nat.succ_mul, Nat.add_comm (i * m) m, Nat.add_comm]
    rw [hshift, ih (l.drop m) (by rw [List.length_drop]; omega)]
    exact List.take_append_drop m l

/-- C10: for every message text, the chunk-splitting routine produces exactly
`max(ceil(len / 2000), 1)` chunks; chunk `i` is the slice
`[i*2000, (i+1)*2000)`; every chunk has length at most 2000; the in-order
concatenation of the chunks is the original text; and at least one chunk is
produced even for the empty text. -/
theorem chunkMessage_spec (text : List Char) :
    (chunkMessage text).length = max ((text.length + 1999) / 2000) 1 ∧
    chunkMessage text ≠ [] ∧
    (∀ c ∈ chunkMessage text, c.length ≤ 2000) ∧
    (chunkMessage text).flatten = text ∧
    ∀ i (h : i < (chunkMessage text).length),
      (chunkMessage text).get ⟨i, h⟩ = (text.drop (i * 2000)).take 2000 := by
  refine ⟨?_, ?_, ?_, ?_, ?_⟩
  · simp [chunkMessage]
  · apply List.length_pos.mp
    simp only [chunkMessage, List.length_map, List.length_range]
    omega
  · intro c hc
    simp only [chunkMessage, List.mem_map] at hc
    obtain ⟨i, _, rfl⟩ := hc
    rw [List.length_take]
    exact min_le_left _ _
  · have h1 : text.length ≤ ((text.length + 1999) / 2000) * 2000 := by omega
    have h2 : ((text.length + 1999) / 2000) * 2000 ≤
        (max ((text.length + 1999) / 2000) 1) * 2000 :=
      Nat.mul_le_mul_right _ (le_max_left _ _)
    exact join_chunks 2000 _ text (le_trans h1 h2)
  · intro i h
    simp [chunkMessage, List.get_eq_getElem]

/-! ### C1: best model for an experiment -/

/-- C1 counterexample: experiment `"E2"` is a known experiment id of the
snapshot but no model belongs to it; `best_model_for_experiment("E2")` does
not return the `None` sentinel — it returns the single model of the
snapshot, whose `experiment_id` is `"E1"`, not the requested `"E2"`. -/
theorem best_model_wrong_experiment_counterexample :
    "E2" ∈ oneModelTwoExperiments.experiment_ids ∧
    oneModelTwoExperiments.best_model_for_experiment "E2" = some mlpModel ∧
    mlpModel.experiment_id ≠ "E2" := by
  exact ⟨by decide, by decide, by decide⟩

/-- C1 amended: `best_model_for_experiment` returns `None` exactly when the
(refreshed) snapshot holds zero models or the experiment id is unknown.
When the experiment id is known and at least one model of the snapshot
belongs to it (run-id keys unique, test accuracies non-negative so they beat
the `-1.0` sentinel), the result is a record of that experiment with maximal
test accuracy among the matching models.  When the experiment id is known
but no model matches, the result is non-`None` but is some model of a
different experiment (the first model in insertion order), as the
counterexample shows.  Under a successful implicit `refresh()` the method
computes this selection on the refreshed snapshot. -/
theorem best_model_for_experiment_spec (s : Snapshot) (expId : String) :
    (s.models.length = 0 ∨ ¬ expId ∈ s.experiment_ids →
      s.best_model_for_experiment expId = none) ∧
    ((s.models.map Prod.fst).Nodup →
      (∀ p ∈ s.models, (0 : ℚ) ≤ p.2.test_acc) →
      expId ∈ s.experiment_ids →
      ∀ q ∈ s.models, q.2.experiment_id = expId →
      ∃ m, s.best_model_for_experiment expId = some m ∧
        m.experiment_id = expId ∧ (∃ p ∈ s.models, p.2 = m) ∧
        ∀ p ∈ s.models, p.2.experiment_id = expId →
          p.2.test_acc ≤ m.test_acc) ∧
    (∀ b s0, Registry.refresh b s0 = (s, none) →
      Registry.best_model_for_experiment b s0 expId =
        .ok (s.best_model_for_experiment expId)) := by
  refine ⟨?_, ?_, ?_⟩
  · intro h
    simp only [Snapshot.best_model_for_experiment]
    rw [if_pos h]
  · intro hnd hacc hexp q hq hqe
    obtain ⟨hd, tl, hm⟩ : ∃ hd tl, s.models = hd :: tl := by
      cases hsm : s.models with
      | nil => rw [hsm] at hq; cases hq
      | cons a b => exact ⟨a, b, rfl⟩
    set r := tl.foldl (pickMax (selKey expId)) hd with hr
    have hrmem : r ∈ s.models := by rw [hm]; exact foldl_pickMax_mem _ tl hd
    have hge : ∀ y ∈ s.models, selKey expId y ≤ selKey expId r := by
      intro y hy
      rw [hm] at hy
      exact foldl_pickMax_ge _ tl hd y hy
    have hqkey : selKey expId q = q.2.test_acc := by simp [selKey, hqe]
    have hq0 : (0 : ℚ) ≤ selKey expId q := hqkey ▸ hacc q hq
    have hrmatch : r.2.experiment_id = expId := by
      by_contra hne
      have h1 : selKey expId r = -1 := by simp [selKey, hne]
      have h2 := hge q hq
      rw [h1] at h2
      linarith
    have hcond : ¬ (s.models.length = 0 ∨ ¬ expId ∈ s.experiment_ids) := by
      push_neg
      exact ⟨by rw [hm]; simp, hexp⟩
    have hres : s.best_model_for_experiment expId = alookup r.1 s.models := by
      simp only [Snapshot.best_model_for_experiment]
      rw [if_neg hcond, hm]
      simp [maxKeyFirst, ← hr]
    have hlook : alookup r.1 s.models = some r.2 :=
      alookup_fst_of_mem_nodup s.models r hnd hrmem
    refine ⟨r.2, by rw [hres, hlook], hrmatch, ⟨r, hrmem, rfl⟩, ?_⟩
    intro p hp hpe
    have hle := hge p hp
    simpa [selKey, hpe, hrmatch] using hle
  · intro b s0 hrefresh
    simp [Registry.best_model_for_experiment, hrefresh]

end Mltemplate
